import Mathlib

/-!
Verification of the Joypad controller-adapter firmware core
(USB device mode manager, profile engine, main scheduler, dual-core
dispatcher), shallowly embedded from the C sources:
`src/main.c`, `src/usb/usbd/usbd.c`, `src/usb/usbd/modes/switch_mode.c`,
`src/usb/usbd/descriptors/switch_descriptors.h`.

Machine integers are modelled as `Nat`/`Int` with explicit `% 2^w` where
the C performs a narrowing conversion.  Fallible operations return
`Option`.  Stateful code is modelled by explicit state passing.
-/

namespace Joypad

/-! ## Abstract button ids (`core/buttons.h`)

Modelled from the spec: `core/buttons.h` is not under `src/`.  The spec
(§3) lists the 32-bit abstract button bitset as dpad, face B1–B4,
shoulders L1/R1, triggers L2/R2, starts S1/S2, sticks L3/R3, auxiliary
A1–A4, extra L4/R4; only the distinctness of the bits matters for the
properties below, so the bits are assigned in that enumeration order. -/

def JP_BUTTON_DU : Nat := 1 <<< 0
def JP_BUTTON_DD : Nat := 1 <<< 1
def JP_BUTTON_DL : Nat := 1 <<< 2
def JP_BUTTON_DR : Nat := 1 <<< 3
def JP_BUTTON_B1 : Nat := 1 <<< 4
def JP_BUTTON_B2 : Nat := 1 <<< 5
def JP_BUTTON_B3 : Nat := 1 <<< 6
def JP_BUTTON_B4 : Nat := 1 <<< 7
def JP_BUTTON_L1 : Nat := 1 <<< 8
def JP_BUTTON_R1 : Nat := 1 <<< 9
def JP_BUTTON_L2 : Nat := 1 <<< 10
def JP_BUTTON_R2 : Nat := 1 <<< 11
def JP_BUTTON_S1 : Nat := 1 <<< 12
def JP_BUTTON_S2 : Nat := 1 <<< 13
def JP_BUTTON_L3 : Nat := 1 <<< 14
def JP_BUTTON_R3 : Nat := 1 <<< 15
def JP_BUTTON_A1 : Nat := 1 <<< 16
def JP_BUTTON_A2 : Nat := 1 <<< 17

/-! ## Switch hat and button constants
(`src/usb/usbd/descriptors/switch_descriptors.h`).

The HID-mode `HID_HAT_*` constants used by the identical copy of
`convert_dpad_to_hat` in `usbd.c` follow the same documented convention
(spec §4.6: `{UP=0, UPRIGHT=1, RIGHT=2, DOWNRIGHT=3, DOWN=4, DOWNLEFT=5,
LEFT=6, UPLEFT=7, CENTER=8}`). -/

def SWITCH_HAT_UP : Nat := 0x00
def SWITCH_HAT_UP_RIGHT : Nat := 0x01
def SWITCH_HAT_RIGHT : Nat := 0x02
def SWITCH_HAT_DOWN_RIGHT : Nat := 0x03
def SWITCH_HAT_DOWN : Nat := 0x04
def SWITCH_HAT_DOWN_LEFT : Nat := 0x05
def SWITCH_HAT_LEFT : Nat := 0x06
def SWITCH_HAT_UP_LEFT : Nat := 0x07
def SWITCH_HAT_CENTER : Nat := 0x08

def SWITCH_MASK_Y : Nat := 1 <<< 0
def SWITCH_MASK_B : Nat := 1 <<< 1
def SWITCH_MASK_A : Nat := 1 <<< 2
def SWITCH_MASK_X : Nat := 1 <<< 3
def SWITCH_MASK_L : Nat := 1 <<< 4
def SWITCH_MASK_R : Nat := 1 <<< 5
def SWITCH_MASK_ZL : Nat := 1 <<< 6
def SWITCH_MASK_ZR : Nat := 1 <<< 7
def SWITCH_MASK_MINUS : Nat := 1 <<< 8
def SWITCH_MASK_PLUS : Nat := 1 <<< 9
def SWITCH_MASK_L3 : Nat := 1 <<< 10
def SWITCH_MASK_R3 : Nat := 1 <<< 11
def SWITCH_MASK_HOME : Nat := 1 <<< 12
def SWITCH_MASK_CAPTURE : Nat := 1 <<< 13

def SWITCH_JOYSTICK_MID : Nat := 0x80

/-! ## D-pad to hat encoder
(`convert_dpad_to_hat`, `src/usb/usbd/modes/switch_mode.c` lines 26–43;
the copy in `usbd.c` lines 277–295 is textually identical modulo the
`HID_HAT_*` constant names, whose values follow the same convention). -/

def convert_dpad_to_hat (buttons : Nat) : Nat :=
  let up : Bool := buttons &&& JP_BUTTON_DU != 0
  let down : Bool := buttons &&& JP_BUTTON_DD != 0
  let left : Bool := buttons &&& JP_BUTTON_DL != 0
  let right : Bool := buttons &&& JP_BUTTON_DR != 0
  if up && right then SWITCH_HAT_UP_RIGHT
  else if up && left then SWITCH_HAT_UP_LEFT
  else if down && right then SWITCH_HAT_DOWN_RIGHT
  else if down && left then SWITCH_HAT_DOWN_LEFT
  else if up then SWITCH_HAT_UP
  else if down then SWITCH_HAT_DOWN
  else if left then SWITCH_HAT_LEFT
  else if right then SWITCH_HAT_RIGHT
  else SWITCH_HAT_CENTER

/-- Build a d-pad button mask from the four direction flags. -/
def dpadMask (u d l r : Bool) : Nat :=
  (if u then JP_BUTTON_DU else 0) |||
  (if d then JP_BUTTON_DD else 0) |||
  (if l then JP_BUTTON_DL else 0) |||
  (if r then JP_BUTTON_DR else 0)

/-- The hat value the encoder actually produces on each of the 16
subsets of {U,D,L,R}, written as an explicit table: the 8 canonical
subsets map to their documented direction codes, the empty set to
CENTER, and subsets containing an opposite pair resolve by the
cascade's fixed priority (diagonals first, then U, D, L, R). -/
def dpadHatTable (u d l r : Bool) : Nat :=
  match u, d, l, r with
  | false, false, false, false => 0x08  -- empty          -> CENTER
  | true,  false, false, false => 0x00  -- {U}            -> UP
  | false, true,  false, false => 0x04  -- {D}            -> DOWN
  | false, false, true,  false => 0x06  -- {L}            -> LEFT
  | false, false, false, true  => 0x02  -- {R}            -> RIGHT
  | true,  false, false, true  => 0x01  -- {U,R}          -> UP_RIGHT
  | true,  false, true,  false => 0x07  -- {U,L}          -> UP_LEFT
  | false, true,  false, true  => 0x03  -- {D,R}          -> DOWN_RIGHT
  | false, true,  true,  false => 0x05  -- {D,L}          -> DOWN_LEFT
  | true,  true,  false, false => 0x00  -- {U,D}          -> UP (not CENTER)
  | false, false, true,  true  => 0x06  -- {L,R}          -> LEFT (not CENTER)
  | true,  true,  true,  false => 0x07  -- {U,D,L}        -> UP_LEFT
  | true,  true,  false, true  => 0x01  -- {U,D,R}        -> UP_RIGHT
  | true,  false, true,  true  => 0x01  -- {U,L,R}        -> UP_RIGHT
  | false, true,  true,  true  => 0x03  -- {D,L,R}        -> DOWN_RIGHT
  | true,  true,  true,  true  => 0x01  -- {U,D,L,R}      -> UP_RIGHT

/-- C1 (counterexample): the opposite-pair subset {U,D} does not map to
CENTER: the encoder returns UP (0x00). -/
theorem convert_dpad_opposite_pair_not_center :
    convert_dpad_to_hat (JP_BUTTON_DU ||| JP_BUTTON_DD) = SWITCH_HAT_UP ∧
    convert_dpad_to_hat (JP_BUTTON_DU ||| JP_BUTTON_DD) ≠ SWITCH_HAT_CENTER := by
  decide

/-- C1 (amended): the d-pad-to-hat encoder is a total function on all 16
subsets of {U,D,L,R}: it returns CENTER (0x08) for the empty set and the
documented direction code for each of the 8 canonical subsets (in
particular UP_RIGHT = 0x01 for {DU,DR}); subsets containing an opposite
pair resolve by the cascade's fixed priority (diagonals first, then U,
D, L, R) — e.g. {U,D} yields UP, {L,R} yields LEFT — never CENTER for a
non-empty subset. -/
theorem convert_dpad_to_hat_table (u d l r : Bool) :
    convert_dpad_to_hat (dpadMask u d l r) = dpadHatTable u d l r := by
  cases u <;> cases d <;> cases l <;> cases r <;> decide

/-! ## USB output mode ids

Modelled from the spec: the `usb_output_mode_t` enum lives in
`usb/usbd/usbd.h`, which is not under `src/`.  The spec (§4.6) and the
`mode_names` initializer in `usbd.c` enumerate eleven modes with HID
(DInput) as the default; they are assigned consecutive ids in that
order.  The properties below depend only on the ids being distinct,
on HID being the default, and on `USB_OUTPUT_MODE_COUNT` bounding them. -/

def USB_OUTPUT_MODE_HID : Nat := 0
def USB_OUTPUT_MODE_XBOX_ORIGINAL : Nat := 1
def USB_OUTPUT_MODE_XINPUT : Nat := 2
def USB_OUTPUT_MODE_PS3 : Nat := 3
def USB_OUTPUT_MODE_PS4 : Nat := 4
def USB_OUTPUT_MODE_SWITCH : Nat := 5
def USB_OUTPUT_MODE_PSCLASSIC : Nat := 6
def USB_OUTPUT_MODE_XBONE : Nat := 7
def USB_OUTPUT_MODE_XAC : Nat := 8
def USB_OUTPUT_MODE_KEYBOARD_MOUSE : Nat := 9
def USB_OUTPUT_MODE_GC_ADAPTER : Nat := 10
def USB_OUTPUT_MODE_COUNT : Nat := 11

/-- The explicit supported-mode check shared by `usbd_set_mode`
(`usbd.c` lines 361–371) and `usbd_init` (`usbd.c` lines 500–510):
a disjunction of equalities against the eleven supported mode ids. -/
def usbd_mode_supported (mode : Nat) : Bool :=
  mode == USB_OUTPUT_MODE_HID ||
  mode == USB_OUTPUT_MODE_XBOX_ORIGINAL ||
  mode == USB_OUTPUT_MODE_XINPUT ||
  mode == USB_OUTPUT_MODE_PS3 ||
  mode == USB_OUTPUT_MODE_PS4 ||
  mode == USB_OUTPUT_MODE_SWITCH ||
  mode == USB_OUTPUT_MODE_PSCLASSIC ||
  mode == USB_OUTPUT_MODE_XBONE ||
  mode == USB_OUTPUT_MODE_XAC ||
  mode == USB_OUTPUT_MODE_KEYBOARD_MOUSE ||
  mode == USB_OUTPUT_MODE_GC_ADAPTER

/-! ## Mode change (`usbd_set_mode`, `usbd.c` lines 354–416)

The C function manipulates three pieces of observable state: the return
value (the final `return true` sits after an infinite `while(1)` spin
awaiting the watchdog, so a diverging call is modelled as `ret = none`),
the watchdog arming (`watchdog_enable(100, false)`), and the persisted
flash record.  `flash_save_now(&flash_settings)` is called with its
result ignored; the subsequent `flash_load(&verify_settings)` verify
result is only printed.  The outcome of the physical save is the
`saveOk` parameter: the persisted mode changes exactly when the save
succeeds. -/

structure SetModeOutcome where
  /-- `some b` if the call returns `b`; `none` if it spins forever. -/
  ret : Option Bool
  /-- whether `watchdog_enable` ran. -/
  watchdogArmed : Bool
  /-- `usb_output_mode` in the persisted flash record afterwards. -/
  persistedMode : Nat
  /-- the in-RAM `output_mode` variable afterwards. -/
  runningMode : Nat
  deriving DecidableEq, Repr

def usbd_set_mode (currentMode persistedMode mode : Nat) (saveOk : Bool) :
    SetModeOutcome :=
  if USB_OUTPUT_MODE_COUNT ≤ mode then
    ⟨some false, false, persistedMode, currentMode⟩
  else if !usbd_mode_supported mode then
    ⟨some false, false, persistedMode, currentMode⟩
  else if mode == currentMode then
    ⟨some false, false, persistedMode, currentMode⟩
  else
    -- flash_settings.usb_output_mode = mode; flash_save_now (result
    -- ignored); flash_load verify (result only printed); output_mode =
    -- mode; watchdog_enable(100, false); while(1);
    ⟨none, true, if saveOk then mode else persistedMode, mode⟩

/-- C3 (counterexample): starting from HID with HID persisted, a call
`usbd_set_mode(SWITCH)` whose flash save fails still arms the watchdog
and never returns — the save result is ignored, so the mode-change path
does not abort. -/
theorem usbd_set_mode_save_failure_still_resets :
    (usbd_set_mode USB_OUTPUT_MODE_HID USB_OUTPUT_MODE_HID
        USB_OUTPUT_MODE_SWITCH false).watchdogArmed = true ∧
    (usbd_set_mode USB_OUTPUT_MODE_HID USB_OUTPUT_MODE_HID
        USB_OUTPUT_MODE_SWITCH false).ret = none := by
  decide

/-- C3 (amended): `usbd_set_mode` ignores the result of the flash save:
on any actual mode change it arms the watchdog and spins regardless of
whether the save succeeded.  When the save fails, only the persisted
mode is protected (the record on flash keeps its old value, so the
reboot re-enters the old mode); the watchdog reset is not conditioned
on a successful, verified write. -/
theorem usbd_set_mode_ignores_save_result (cur persisted mode : Nat)
    (hlt : mode < USB_OUTPUT_MODE_COUNT)
    (hsup : usbd_mode_supported mode = true)
    (hne : mode ≠ cur) :
    ∀ saveOk : Bool,
      (usbd_set_mode cur persisted mode saveOk).watchdogArmed = true ∧
      (usbd_set_mode cur persisted mode saveOk).ret = none ∧
      (usbd_set_mode cur persisted mode false).persistedMode = persisted ∧
      (usbd_set_mode cur persisted mode true).persistedMode = mode := by
  intro saveOk
  have hmode : (mode == cur) = false := by
    simp [hne]
  simp [usbd_set_mode, Nat.not_le.mpr hlt, hsup, hmode]

/-- Witness for `usbd_set_mode_ignores_save_result` at
cur = HID, persisted = HID, mode = SWITCH. -/
theorem usbd_set_mode_ignores_save_result_witness :
    (usbd_set_mode USB_OUTPUT_MODE_HID USB_OUTPUT_MODE_HID
        USB_OUTPUT_MODE_SWITCH false).watchdogArmed = true ∧
    (usbd_set_mode USB_OUTPUT_MODE_HID USB_OUTPUT_MODE_HID
        USB_OUTPUT_MODE_SWITCH false).ret = none ∧
    (usbd_set_mode USB_OUTPUT_MODE_HID USB_OUTPUT_MODE_HID
        USB_OUTPUT_MODE_SWITCH false).persistedMode = USB_OUTPUT_MODE_HID ∧
    (usbd_set_mode USB_OUTPUT_MODE_HID USB_OUTPUT_MODE_HID
        USB_OUTPUT_MODE_SWITCH true).persistedMode = USB_OUTPUT_MODE_SWITCH :=
  usbd_set_mode_ignores_save_result USB_OUTPUT_MODE_HID USB_OUTPUT_MODE_HID
    USB_OUTPUT_MODE_SWITCH (by decide) (by decide) (by decide) false

/-- C10: `usbd_set_mode` never returns `true`: every call either returns
`false` — exactly when the mode id is out of range, not in the supported
set, or equal to the current mode, in which case the persisted record
and running mode are untouched and the watchdog is not armed — or it
diverges spinning for the watchdog reset, and that is the only case in
which the watchdog is armed. -/
theorem usbd_set_mode_never_true (cur persisted mode : Nat) (saveOk : Bool) :
    (usbd_set_mode cur persisted mode saveOk).ret ≠ some true ∧
    ((usbd_set_mode cur persisted mode saveOk).ret = some false ↔
      (USB_OUTPUT_MODE_COUNT ≤ mode ∨ usbd_mode_supported mode = false ∨
        mode = cur)) ∧
    ((usbd_set_mode cur persisted mode saveOk).ret = some false →
      (usbd_set_mode cur persisted mode saveOk).persistedMode = persisted ∧
      (usbd_set_mode cur persisted mode saveOk).runningMode = cur ∧
      (usbd_set_mode cur persisted mode saveOk).watchdogArmed = false) ∧
    ((usbd_set_mode cur persisted mode saveOk).ret = none →
      (usbd_set_mode cur persisted mode saveOk).watchdogArmed = true) := by
  by_cases h1 : USB_OUTPUT_MODE_COUNT ≤ mode
  · simp [usbd_set_mode, h1]
  · by_cases h2 : usbd_mode_supported mode = true
    · by_cases h3 : mode = cur
      · simp [usbd_set_mode, h1, h2, h3]
      · have hmode : (mode == cur) = false := by simp [h3]
        simp [usbd_set_mode, h1, h2, hmode, h3]
    · have h2' : usbd_mode_supported mode = false := by
        simpa using h2
      simp [usbd_set_mode, h1, h2']

/-- Witness for `usbd_set_mode_never_true` at the out-of-range mode id
11 and at a same-mode call: both return `false`, leave the state
untouched, and do not arm the watchdog. -/
theorem usbd_set_mode_never_true_witness :
    (usbd_set_mode USB_OUTPUT_MODE_HID USB_OUTPUT_MODE_HID 11 true).ret ≠
      some true ∧
    (usbd_set_mode USB_OUTPUT_MODE_HID USB_OUTPUT_MODE_HID
        USB_OUTPUT_MODE_HID true).ret = some false :=
  ⟨(usbd_set_mode_never_true USB_OUTPUT_MODE_HID USB_OUTPUT_MODE_HID 11
      true).1,
   ((usbd_set_mode_never_true USB_OUTPUT_MODE_HID USB_OUTPUT_MODE_HID
      USB_OUTPUT_MODE_HID true).2.1).mpr (Or.inr (Or.inr rfl))⟩

/-! ## Boot-time mode selection (`usbd_init`, `usbd.c` lines 484–525)

`output_mode` starts at its static initializer `USB_OUTPUT_MODE_HID`.
If the flash record loads (magic and CRC valid), the persisted value is
adopted only when it is below `USB_OUTPUT_MODE_COUNT` and passes the
explicit supported-mode list; otherwise the default is kept. -/

def usbd_init_output_mode (loadOk : Bool) (persisted : Nat) : Nat :=
  -- static usb_output_mode_t output_mode = USB_OUTPUT_MODE_HID;
  if loadOk then
    if persisted < USB_OUTPUT_MODE_COUNT then
      if usbd_mode_supported persisted then persisted
      else USB_OUTPUT_MODE_HID
    else USB_OUTPUT_MODE_HID
  else USB_OUTPUT_MODE_HID

/-- C5: if the persisted flash record is valid but its
`usb_output_mode` is not in the supported set, `usbd_init` keeps the
default HID/DInput mode; the out-of-set value is never adopted. -/
theorem usbd_init_unsupported_mode_default (persisted : Nat)
    (h : usbd_mode_supported persisted = false) :
    usbd_init_output_mode true persisted = USB_OUTPUT_MODE_HID ∧
    usbd_init_output_mode true persisted ≠ persisted := by
  have hne : persisted ≠ USB_OUTPUT_MODE_HID := by
    intro he
    rw [he] at h
    simp [usbd_mode_supported] at h
  constructor
  · by_cases hlt : persisted < USB_OUTPUT_MODE_COUNT
    · simp [usbd_init_output_mode, hlt, h]
    · simp [usbd_init_output_mode, hlt]
  · by_cases hlt : persisted < USB_OUTPUT_MODE_COUNT
    · simp [usbd_init_output_mode, hlt, h]
      exact fun he => hne he.symm
    · simp [usbd_init_output_mode, hlt]
      exact fun he => hne he.symm

/-- Witness for `usbd_init_unsupported_mode_default` at the persisted
byte 42, which is not a supported mode. -/
theorem usbd_init_unsupported_mode_default_witness :
    usbd_init_output_mode true 42 = USB_OUTPUT_MODE_HID ∧
    usbd_init_output_mode true 42 ≠ 42 :=
  usbd_init_unsupported_mode_default 42 (by decide)

/-! ## Input events and profile output (`core/input_event.h`, spec §3)

An `input_event_t` is a self-contained snapshot: 32-bit button bitset
and six 8-bit axes (LX, LY, RX, RY, L2, R2; sticks centered at 128).
The optional motion/pressure blocks are passed through untouched by
every function below and carry no verified property, so they are not
modelled. -/

structure InputEvent where
  buttons : Nat
  lx : Nat
  ly : Nat
  rx : Nat
  ry : Nat
  l2 : Nat
  r2 : Nat
  deriving DecidableEq, Repr

/-- `profile_output_t`: the post-remap result fed to a mode's report
builder — same buttons/axes shape as `input_event`. -/
structure ProfileOutput where
  buttons : Nat
  left_x : Nat
  left_y : Nat
  right_x : Nat
  right_y : Nat
  l2_analog : Nat
  r2_analog : Nat
  deriving DecidableEq, Repr

/-- A custom profile's fields used by the stick-processing code in
`apply_usbd_profile` (`usbd.c` lines 176–207).  The
`PROFILE_FLAG_SWAP_STICKS` / `PROFILE_FLAG_INVERT_LY` /
`PROFILE_FLAG_INVERT_RY` bit tests on `custom->flags` are modelled as
the three Booleans. -/
structure CustomProfile where
  left_stick_sens : Nat
  right_stick_sens : Nat
  swapSticks : Bool
  invertLY : Bool
  invertRY : Bool
  deriving DecidableEq, Repr

/-! ## Stick sensitivity scaling (`apply_usbd_profile`, `usbd.c` 178–191)

The C computes, per axis,

  float sens = custom->left_stick_sens / 100.0f;
  int16_t rel = (int16_t)value - 128;
  value = (uint8_t)(128 + (int16_t)(rel * sens));

`rel` is in −128..127, so `rel * sens` is at most a few hundred and the
`(int16_t)` cast of the float truncates toward zero.  The model computes
the scaled offset as the exact rational `rel * sens_pct / 100` truncated
toward zero (`Int.quot`); this agrees with the binary32 computation
whenever `sens_pct / 100.0f` and the product are exactly representable —
in particular for every multiple of 25 such as the 200 used below.  The
final `(uint8_t)` cast reduces `128 + scaled` modulo 256; there is no
saturation anywhere on this path (contrast `convert_axis_to_s16` in the
same file, which does clamp). -/

def scale_axis (sensPct value : Nat) : Nat :=
  let rel : Int := (value : Int) - 128
  let scaled : Int := Int.tdiv (rel * (sensPct : Int)) 100
  (((128 + scaled) % 256).toNat)

/-- The custom-profile stick processing of `apply_usbd_profile`
(`usbd.c` lines 178–207): sensitivity scaling per stick (skipped at
exactly 100), then swap, then Y inversions. -/
def apply_custom_sticks (custom : CustomProfile) (po : ProfileOutput) :
    ProfileOutput :=
  let po :=
    if custom.left_stick_sens ≠ 100 then
      { po with left_x := scale_axis custom.left_stick_sens po.left_x,
                left_y := scale_axis custom.left_stick_sens po.left_y }
    else po
  let po :=
    if custom.right_stick_sens ≠ 100 then
      { po with right_x := scale_axis custom.right_stick_sens po.right_x,
                right_y := scale_axis custom.right_stick_sens po.right_y }
    else po
  let po :=
    if custom.swapSticks then
      { po with left_x := po.right_x, left_y := po.right_y,
                right_x := po.left_x, right_y := po.left_y }
    else po
  let po := if custom.invertLY then { po with left_y := 255 - po.left_y } else po
  if custom.invertRY then { po with right_y := 255 - po.right_y } else po

/-- C2 (failing input): with sensitivity 200 and a fully deflected axis
value 255 the code wraps instead of saturating: 128 + 127·2 = 382, and
the `(uint8_t)` cast turns it into 126 — the stick flips to the other
side of center instead of clamping at 255.  (At 100% rest values pass
through: 128 stays 128.) -/
theorem scale_axis_wraps_at_200_percent :
    scale_axis 200 255 = 126 ∧
    (apply_custom_sticks ⟨200, 100, false, false, false⟩
        ⟨0, 255, 128, 128, 128, 0, 0⟩).left_x = 126 ∧
    scale_axis 200 128 = 128 := by
  decide

/-! ## Per-player pending-event queue (`usbd.c` lines 80–82, 461–478,
785–813)

One slot per player (`USB_MAX_PLAYERS = 4`), each an event plus a
`pending_flags` Boolean.  The router tap `usbd_on_input` overwrites the
slot and sets the flag; the consumer in `usbd_send_hid_report` (and its
per-mode clones) reads the slot and clears the flag. -/

def USB_MAX_PLAYERS : Nat := 4

structure PendingState where
  events : Nat → InputEvent
  flags : Nat → Bool

/-- Router tap callback (`usbd_on_input`, `usbd.c` 461–478): drops
events for out-of-range players, otherwise overwrites the player's slot
and sets its flag.  (The player-0 profile-combo check mutates only
profile state and is not modelled.) -/
def usbd_on_input (p : Nat) (e : InputEvent) (s : PendingState) : PendingState :=
  if USB_MAX_PLAYERS ≤ p then s
  else
    { events := fun q => if q = p then e else s.events q,
      flags := fun q => if q = p then true else s.flags q }

/-- The consumption step of `usbd_send_hid_report` (`usbd.c` 785–813):
if the mode is not ready, or the player is out of range, or no event is
pending, nothing is consumed (the pending event is kept); otherwise the
slot's event is taken, the flag is cleared, and the event goes to the
profile engine / `send_report`. -/
def usbd_consume_pending (ready : Bool) (p : Nat) (s : PendingState) :
    Option InputEvent × PendingState :=
  if !ready then (none, s)
  else if USB_MAX_PLAYERS ≤ p then (none, s)
  else if !s.flags p then (none, s)
  else (some (s.events p),
        { s with flags := fun q => if q = p then false else s.flags q })

/-- C4: the pending-event queue is latest-wins with depth 1: for every
player below `USB_MAX_PLAYERS`, publishing event `a` then event `b`
before the USB-device task consumes makes the consumer observe only `b`
(`a` is never passed on), and consumption clears exactly that player's
valid flag. -/
theorem pending_queue_latest_wins (p : Nat) (hp : p < USB_MAX_PLAYERS)
    (a b : InputEvent) (s : PendingState) :
    (usbd_consume_pending true p (usbd_on_input p b (usbd_on_input p a s))).1
      = some b ∧
    (usbd_consume_pending true p (usbd_on_input p b (usbd_on_input p a s))).2.flags p
      = false ∧
    ∀ q, q ≠ p →
      (usbd_consume_pending true p (usbd_on_input p b (usbd_on_input p a s))).2.flags q
        = s.flags q := by
  have hnp : ¬ USB_MAX_PLAYERS ≤ p := Nat.not_le.mpr hp
  refine ⟨?_, ?_, ?_⟩
  · simp [usbd_on_input, usbd_consume_pending, hnp]
  · simp [usbd_on_input, usbd_consume_pending, hnp]
  · intro q hq
    simp [usbd_on_input, usbd_consume_pending, hnp, hq]

/-- Witness for `pending_queue_latest_wins` at player 0 with two
concrete distinct events and an empty initial state. -/
theorem pending_queue_latest_wins_witness :
    (usbd_consume_pending true 0
        (usbd_on_input 0 ⟨2, 1, 1, 1, 1, 0, 0⟩
          (usbd_on_input 0 ⟨1, 0, 0, 0, 0, 0, 0⟩
            ⟨fun _ => ⟨0, 0, 0, 0, 0, 0, 0⟩, fun _ => false⟩))).1
      = some ⟨2, 1, 1, 1, 1, 0, 0⟩ ∧
    (usbd_consume_pending true 0
        (usbd_on_input 0 ⟨2, 1, 1, 1, 1, 0, 0⟩
          (usbd_on_input 0 ⟨1, 0, 0, 0, 0, 0, 0⟩
            ⟨fun _ => ⟨0, 0, 0, 0, 0, 0, 0⟩, fun _ => false⟩))).2.flags 0
      = false := by
  have h := pending_queue_latest_wins 0 (by decide)
    ⟨1, 0, 0, 0, 0, 0, 0⟩ ⟨2, 1, 1, 1, 1, 0, 0⟩
    ⟨fun _ => ⟨0, 0, 0, 0, 0, 0, 0⟩, fun _ => false⟩
  exact ⟨h.1, h.2.1⟩

/-! ## Profile application with no active profile

`apply_usbd_profile` (`usbd.c` 148–240) first calls `profile_apply`
with the active built-in profile, then — only when no built-in profile
exists — applies the active custom profile. -/

/-- Modelled from the spec: `profile_apply` lives in
`core/services/profiles/profile.c`, which is not under `src/`.  With no
built-in profile supplied it passes buttons and axes through unchanged
(spec §4.2: the built-in remap runs only "if a built-in profile is
supplied"; testable property 8 makes the identity case the identity on
`(buttons, lx, ly, rx, ry)`). -/
def profile_apply_no_builtin (buttons lx ly rx ry l2 r2 : Nat) :
    ProfileOutput :=
  ⟨buttons, lx, ly, rx, ry, l2, r2⟩

/-- `apply_usbd_profile` (`usbd.c` 148–240) in the configuration where
no built-in profile is active: the pass-through `profile_apply`, then
the custom profile (button remap abstracted as `customButtons`, sticks
per `apply_custom_sticks`) when one is active.  Returns the processed
`profile_out` whose `.buttons` the caller forwards to `send_report`. -/
def apply_usbd_profile (custom : Option CustomProfile)
    (customButtons : Nat → Nat) (event : InputEvent) : ProfileOutput :=
  let po := profile_apply_no_builtin event.buttons event.lx event.ly
    event.rx event.ry event.l2 event.r2
  match custom with
  | none => po
  | some c => apply_custom_sticks c { po with buttons := customButtons po.buttons }

/-! ## Switch mode report builder
(`switch_mode_send_report`, `src/usb/usbd/modes/switch_mode.c` 65–104;
report layout `switch_in_report_t`,
`src/usb/usbd/descriptors/switch_descriptors.h` 60–70). -/

structure SwitchInReport where
  buttons : Nat  -- uint16_t
  hat : Nat
  lx : Nat
  ly : Nat
  rx : Nat
  ry : Nat
  vendor : Nat
  deriving DecidableEq, Repr

def switch_mode_send_report (buttons : Nat) (po : ProfileOutput) :
    SwitchInReport :=
  let b0 : Nat := 0
  let b0 := if buttons &&& JP_BUTTON_B1 != 0 then b0 ||| SWITCH_MASK_B else b0
  let b0 := if buttons &&& JP_BUTTON_B2 != 0 then b0 ||| SWITCH_MASK_A else b0
  let b0 := if buttons &&& JP_BUTTON_B3 != 0 then b0 ||| SWITCH_MASK_Y else b0
  let b0 := if buttons &&& JP_BUTTON_B4 != 0 then b0 ||| SWITCH_MASK_X else b0
  let b0 := if buttons &&& JP_BUTTON_L1 != 0 then b0 ||| SWITCH_MASK_L else b0
  let b0 := if buttons &&& JP_BUTTON_R1 != 0 then b0 ||| SWITCH_MASK_R else b0
  let b0 := if buttons &&& JP_BUTTON_L2 != 0 then b0 ||| SWITCH_MASK_ZL else b0
  let b0 := if buttons &&& JP_BUTTON_R2 != 0 then b0 ||| SWITCH_MASK_ZR else b0
  let b0 := if buttons &&& JP_BUTTON_S1 != 0 then b0 ||| SWITCH_MASK_MINUS else b0
  let b0 := if buttons &&& JP_BUTTON_S2 != 0 then b0 ||| SWITCH_MASK_PLUS else b0
  let b0 := if buttons &&& JP_BUTTON_L3 != 0 then b0 ||| SWITCH_MASK_L3 else b0
  let b0 := if buttons &&& JP_BUTTON_R3 != 0 then b0 ||| SWITCH_MASK_R3 else b0
  let b0 := if buttons &&& JP_BUTTON_A1 != 0 then b0 ||| SWITCH_MASK_HOME else b0
  let b0 := if buttons &&& JP_BUTTON_A2 != 0 then b0 ||| SWITCH_MASK_CAPTURE else b0
  { buttons := b0,
    hat := convert_dpad_to_hat buttons,
    lx := po.left_x,
    ly := po.left_y,
    rx := po.right_x,
    ry := po.right_y,
    vendor := 0 }

/-- The 8-byte wire image of `switch_in_report_t` (packed struct:
little-endian `uint16_t buttons`, then hat, lx, ly, rx, ry, vendor). -/
def switch_report_bytes (r : SwitchInReport) : List Nat :=
  [r.buttons % 256, r.buttons / 256 % 256, r.hat, r.lx, r.ly, r.rx, r.ry,
   r.vendor]

/-- The full Switch-mode path for one consumed event with no active
profile: `apply_usbd_profile`, then `switch_mode_send_report` on the
processed buttons and axes (`usbd_send_switch_report`, `usbd.c`
848–875). -/
def usbd_build_switch_report (event : InputEvent) : SwitchInReport :=
  let po := apply_usbd_profile none id event
  switch_mode_send_report po.buttons po

/-- C6: in Switch mode, an input event with only B1 pressed, sticks
centered at 128, and an absent (identity) profile produces exactly the
8-byte report `buttons = 0x0002` (B), `hat = 0x08` (CENTER),
`lx = ly = rx = ry = 0x80`, `vendor = 0x00`. -/
theorem switch_report_b1_pressed :
    switch_report_bytes
        (usbd_build_switch_report ⟨JP_BUTTON_B1, 128, 128, 128, 128, 0, 0⟩)
      = [0x02, 0x00, 0x08, 0x80, 0x80, 0x80, 0x80, 0x00] ∧
    (switch_report_bytes
        (usbd_build_switch_report ⟨JP_BUTTON_B1, 128, 128, 128, 128, 0, 0⟩)).length
      = 8 := by
  decide

/-! ## Main scheduler (`core0_main`, `src/main.c` lines 74–106)

Interfaces are records of function pointers; a null interface pointer
or a null `task` member is skipped (`if (outputs[i] && outputs[i]->task)`),
modelled by the `hasTask` flag.  `core1_task` is an optional function
pointer, modelled by an `Option` over an opaque task id. -/

structure OutputInterface where
  name : String
  hasTask : Bool
  core1Task : Option Nat
  deriving DecidableEq, Repr

structure InputInterface where
  name : String
  hasTask : Bool
  deriving DecidableEq, Repr

/-- One observable step of a Core-0 main-loop iteration. -/
inductive LoopEvent where
  | leds
  | players
  | storage
  | output (name : String)
  | app
  | input (name : String)
  deriving DecidableEq, Repr

/-- The output-task loop of `core0_main`: for each registered output in
index order, run its task when non-null. -/
def run_output_tasks : List OutputInterface → List LoopEvent
  | [] => []
  | o :: rest =>
    (if o.hasTask then [LoopEvent.output o.name] else []) ++ run_output_tasks rest

/-- The input-task loop of `core0_main`. -/
def run_input_tasks : List InputInterface → List LoopEvent
  | [] => []
  | i :: rest =>
    (if i.hasTask then [LoopEvent.input i.name] else []) ++ run_input_tasks rest

/-- One iteration of the Core-0 main loop (`core0_main`, `main.c`
74–106): `leds_task(); players_task(); storage_task();` then every
output's task, then `app_task()`, then every input's task. -/
def core0_iteration (outputs : List OutputInterface)
    (inputs : List InputInterface) : List LoopEvent :=
  LoopEvent.leds ::
  LoopEvent.players ::
  LoopEvent.storage ::
  (run_output_tasks outputs ++ (LoopEvent.app :: run_input_tasks inputs))

/-- C7: every main-loop iteration runs the components in exactly the
order LED service, player manager, storage, all output-interface tasks
in enumeration order, the app task, all input-interface tasks in
enumeration order — the trace of an iteration is exactly that
concatenation and nothing runs out of place. -/
theorem core0_iteration_order (outputs : List OutputInterface)
    (inputs : List InputInterface) :
    core0_iteration outputs inputs =
      [LoopEvent.leds, LoopEvent.players, LoopEvent.storage] ++
      (outputs.filter (·.hasTask)).map (fun o => LoopEvent.output o.name) ++
      [LoopEvent.app] ++
      (inputs.filter (·.hasTask)).map (fun i => LoopEvent.input i.name) := by
  have houts : ∀ os : List OutputInterface,
      run_output_tasks os =
        (os.filter (·.hasTask)).map (fun o => LoopEvent.output o.name) := by
    intro os
    induction os with
    | nil => rfl
    | cons o rest ih =>
      by_cases h : o.hasTask
      · simp [run_output_tasks, List.filter, h, ih]
      · simp [run_output_tasks, List.filter, h, ih]
  have hins : ∀ is : List InputInterface,
      run_input_tasks is =
        (is.filter (·.hasTask)).map (fun i => LoopEvent.input i.name) := by
    intro is
    induction is with
    | nil => rfl
    | cons i rest ih =>
      by_cases h : i.hasTask
      · simp [run_input_tasks, List.filter, h, ih]
      · simp [run_input_tasks, List.filter, h, ih]
  simp [core0_iteration, houts, hins]

/-! ## Core-1 task discovery and handoff (`main`, `src/main.c` 148–163;
`core1_wrapper`, lines 52–71) -/

/-- The discovery scan in `main` (`main.c` 150–156): walk the outputs
in enumeration order and take the first non-null `core1_task`; the
`break` drops every later candidate. -/
def find_core1_task : List OutputInterface → Option Nat
  | [] => none
  | o :: rest =>
    match o.core1Task with
    | some t => some t  -- break: later outputs are never examined
    | none => find_core1_task rest

/-- What Core 1 does once the ready flag is set (`core1_wrapper`,
`main.c` 62–70): run the assigned task if there is one, otherwise idle
forever in the low-power `__wfi()` loop. -/
inductive Core1Behavior where
  | runTask (t : Nat)
  | idleWfi
  deriving DecidableEq, Repr

def core1_dispatch : Option Nat → Core1Behavior
  | some t => Core1Behavior.runTask t
  | none => Core1Behavior.idleWfi

/-- The startup steps of `main` from the discovery scan onward
(`main.c` 150–163): the scan trace (stopping at the first hit because
of the `break`), then setting `core1_task_ready`, then `__sev()`. -/
inductive MainStep where
  | scan (name : String)
  | setReady
  | signal
  deriving DecidableEq, Repr

def scan_trace : List OutputInterface → List MainStep
  | [] => []
  | o :: rest =>
    MainStep.scan o.name ::
      (match o.core1Task with
       | some _ => []
       | none => scan_trace rest)

def main_handoff_trace (outputs : List OutputInterface) : List MainStep :=
  scan_trace outputs ++ [MainStep.setReady, MainStep.signal]

/-- C8: at most one `core1_task` is ever bound to Core 1: the startup
scan assigns the first non-null `core1_task` in enumeration order
(`find_core1_task` equals the head of all candidates, so later ones are
ignored); if no output provides one, Core 1 idles in the low-power wait
loop after the ready flag is set; and in the handoff trace the ready
flag is set only after the scan steps are all done. -/
theorem core1_task_binding (outputs : List OutputInterface) :
    find_core1_task outputs =
      (outputs.filterMap (·.core1Task)).head? ∧
    ((∀ o ∈ outputs, o.core1Task = none) →
      core1_dispatch (find_core1_task outputs) = Core1Behavior.idleWfi) ∧
    main_handoff_trace outputs =
      scan_trace outputs ++ [MainStep.setReady, MainStep.signal] ∧
    ∀ s ∈ scan_trace outputs, ∃ nm, s = MainStep.scan nm := by
  refine ⟨?_, ?_, rfl, ?_⟩
  · induction outputs with
    | nil => rfl
    | cons o rest ih =>
      cases h : o.core1Task with
      | some t => simp [find_core1_task, List.filterMap, h]
      | none => simp [find_core1_task, List.filterMap, h, ih]
  · intro hall
    have : find_core1_task outputs = none := by
      induction outputs with
      | nil => rfl
      | cons o rest ih =>
        have ho : o.core1Task = none := hall o (by simp)
        simp [find_core1_task, ho]
        exact ih fun o' h' => hall o' (by simp [h'])
    simp [this, core1_dispatch]
  · induction outputs with
    | nil =>
      intro s hs
      simp [scan_trace] at hs
    | cons o rest ih =>
      intro s hs
      simp only [scan_trace, List.mem_cons] at hs
      rcases hs with hs | hs
      · exact ⟨o.name, hs⟩
      · cases h : o.core1Task with
        | some t => rw [h] at hs; simp at hs
        | none => rw [h] at hs; exact ih s hs

/-- Witness for `core1_task_binding` on a concrete registry in which the
second and third outputs both provide a `core1_task`: the first
candidate (id 7) is bound and the later one (id 9) is ignored. -/
theorem core1_task_binding_witness :
    find_core1_task
        [⟨"usb", true, none⟩, ⟨"gc", true, some 7⟩, ⟨"dc", true, some 9⟩] =
      some 7 :=
  (core1_task_binding
    [⟨"usb", true, none⟩, ⟨"gc", true, some 7⟩, ⟨"dc", true, some 9⟩]).1.trans
    (by decide)

/-! ## USB string descriptors
(`tud_descriptor_string_cb`, `usbd.c` lines 1413–1539; serial set up in
`usbd_init`, lines 525–530)

The per-mode manufacturer/product string constants live in the
per-mode descriptor headers; only the Switch header is under `src/`
(`SWITCH_MANUFACTURER = "Nintendo"`, `SWITCH_PRODUCT = "Pro
Controller"`), so the other constants are parameters of the embedding,
collected in `DescStrings`.  A returned descriptor is modelled as the
list of its 16-bit words: the length-prefixed header
`(TUSB_DESC_STRING << 8) | (2*chr_count + 2)` followed by the UTF-16LE
code units of the (ASCII) string, truncated to 31 characters. -/

structure DescStrings where
  xinputManufacturer : String
  xinputProduct : String
  ps3Manufacturer : String
  ps3Product : String
  psclassicManufacturer : String
  psclassicProduct : String
  ps4Manufacturer : String
  ps4Product : String
  xacManufacturer : String
  xacProduct : String
  kbmouseManufacturer : String
  kbmouseProduct : String
  gcAdapterManufacturer : String
  gcAdapterProduct : String
  hidManufacturer : String
  hidProduct : String
  xboneManufacturer : String
  xboneProduct : String
  deriving Repr

def SWITCH_MANUFACTURER : String := "Nintendo"
def SWITCH_PRODUCT : String := "Pro Controller"

/-- The `STRID_MANUFACTURER` if-chain (`usbd.c` 1467–1488). -/
def usbd_manufacturer_string (mode : Nat) (tbl : DescStrings) : String :=
  if mode == USB_OUTPUT_MODE_XINPUT then tbl.xinputManufacturer
  else if mode == USB_OUTPUT_MODE_SWITCH then SWITCH_MANUFACTURER
  else if mode == USB_OUTPUT_MODE_PS3 then tbl.ps3Manufacturer
  else if mode == USB_OUTPUT_MODE_PSCLASSIC then tbl.psclassicManufacturer
  else if mode == USB_OUTPUT_MODE_PS4 then tbl.ps4Manufacturer
  else if mode == USB_OUTPUT_MODE_XAC then tbl.xacManufacturer
  else if mode == USB_OUTPUT_MODE_KEYBOARD_MOUSE then tbl.kbmouseManufacturer
  else if mode == USB_OUTPUT_MODE_GC_ADAPTER then tbl.gcAdapterManufacturer
  else tbl.hidManufacturer

/-- The `STRID_PRODUCT` if-chain (`usbd.c` 1489–1510). -/
def usbd_product_string (mode : Nat) (tbl : DescStrings) : String :=
  if mode == USB_OUTPUT_MODE_XINPUT then tbl.xinputProduct
  else if mode == USB_OUTPUT_MODE_SWITCH then SWITCH_PRODUCT
  else if mode == USB_OUTPUT_MODE_PS3 then tbl.ps3Product
  else if mode == USB_OUTPUT_MODE_PSCLASSIC then tbl.psclassicProduct
  else if mode == USB_OUTPUT_MODE_PS4 then tbl.ps4Product
  else if mode == USB_OUTPUT_MODE_XAC then tbl.xacProduct
  else if mode == USB_OUTPUT_MODE_KEYBOARD_MOUSE then tbl.kbmouseProduct
  else if mode == USB_OUTPUT_MODE_GC_ADAPTER then tbl.gcAdapterProduct
  else tbl.hidProduct

/-- UTF-16LE string-descriptor encoding (`usbd.c` 1528–1538): the
character count is capped at 31, each ASCII character widens to one
16-bit code unit, and the header word is
`(TUSB_DESC_STRING << 8) | (2*chr_count + 2)` with
`TUSB_DESC_STRING = 0x03`. -/
def encode_string_descriptor (s : String) : List Nat :=
  let n := min s.length 31
  ((0x03 <<< 8) ||| (2 * n + 2)) :: (s.data.take 31).map Char.toNat

/-- The language-id descriptor returned at index 0 (`usbd.c`
1463–1466): one word 0x0409 (English) under the same header shape. -/
def langid_descriptor : List Nat := [(0x03 <<< 8) ||| (2 * 1 + 2), 0x0409]

/-- The serial string set up by `usbd_init` (`usbd.c` 525–530): the
`memcpy` of the first `USB_SERIAL_LEN = 12` characters of the
board-unique-id hex string. -/
def usbd_serial_str (boardIdHex : String) : String :=
  ⟨boardIdHex.data.take 12⟩

/-- `tud_descriptor_string_cb` (`usbd.c` 1413–1539).  Xbox OG mode has
no string descriptors at all; Xbox One mode answers only indices 0–3
through its own branch; all other modes follow the `STRID_*` index
enum, whose CDC entries exist because `CFG_TUD_CDC = 2`
(`tusb_config.h`: `USBR_CDC_DEBUG` defaults to 1). -/
def tud_descriptor_string_cb (mode : Nat) (serial : String)
    (tbl : DescStrings) (index : Nat) : Option (List Nat) :=
  if mode == USB_OUTPUT_MODE_XBOX_ORIGINAL then none
  else if mode == USB_OUTPUT_MODE_XBONE then
    if index == 0 then some langid_descriptor
    else if index == 1 then some (encode_string_descriptor tbl.xboneManufacturer)
    else if index == 2 then some (encode_string_descriptor tbl.xboneProduct)
    else if index == 3 then some (encode_string_descriptor serial)
    else none
  else
    if index == 0 then some langid_descriptor
    else if index == 1 then
      some (encode_string_descriptor (usbd_manufacturer_string mode tbl))
    else if index == 2 then
      some (encode_string_descriptor (usbd_product_string mode tbl))
    else if index == 3 then some (encode_string_descriptor serial)
    else if index == 4 then some (encode_string_descriptor "Joypad Data")
    else if index == 5 then some (encode_string_descriptor "Joypad Debug")
    else none

/-- A concrete all-empty string table, used as the explicit input of the
C9 counterexample (the Xbox OG branch never reads it). -/
def emptyDescStrings : DescStrings :=
  ⟨"", "", "", "", "", "", "", "", "", "", "", "", "", "", "", "", "", ""⟩

/-- C9 (counterexample): the index assignment does not hold for every
active output mode: in Xbox Original mode the callback returns no
string descriptor even at index 0, rather than the language id. -/
theorem string_descriptor_xbox_og_none :
    tud_descriptor_string_cb USB_OUTPUT_MODE_XBOX_ORIGINAL
        (usbd_serial_str "E66038B713112233") emptyDescStrings 0 = none ∧
    tud_descriptor_string_cb USB_OUTPUT_MODE_XBOX_ORIGINAL
        (usbd_serial_str "E66038B713112233") emptyDescStrings 0 ≠
      some langid_descriptor := by
  constructor
  · rfl
  · intro h
    simp [tud_descriptor_string_cb, USB_OUTPUT_MODE_XBOX_ORIGINAL] at h

/-- C9 (amended): for every active output mode except Xbox Original
(which exposes no string descriptors) and Xbox One (which answers only
indices 0–3 through its vendor-specific branch), the string-descriptor
callback implements the documented assignment: index 0 the language id,
1 the mode-specific manufacturer, 2 the mode-specific product, 3 the
serial — the first 12 hex characters of the board unique id — and
indices 4 and 5 the CDC data/debug labels; every descriptor is UTF-16LE
with the `(0x03 << 8) | (2*chr_count + 2)` length-prefixed header, and
nothing is returned past index 5. -/
theorem string_descriptor_index_assignment (mode : Nat) (boardIdHex : String)
    (tbl : DescStrings)
    (hxog : mode ≠ USB_OUTPUT_MODE_XBOX_ORIGINAL)
    (hxbone : mode ≠ USB_OUTPUT_MODE_XBONE)
    (hboard : 12 ≤ boardIdHex.length) :
    (tud_descriptor_string_cb mode (usbd_serial_str boardIdHex) tbl 0 =
        some langid_descriptor) ∧
    (tud_descriptor_string_cb mode (usbd_serial_str boardIdHex) tbl 1 =
        some (encode_string_descriptor (usbd_manufacturer_string mode tbl))) ∧
    (tud_descriptor_string_cb mode (usbd_serial_str boardIdHex) tbl 2 =
        some (encode_string_descriptor (usbd_product_string mode tbl))) ∧
    (tud_descriptor_string_cb mode (usbd_serial_str boardIdHex) tbl 3 =
        some (encode_string_descriptor (usbd_serial_str boardIdHex))) ∧
    (usbd_serial_str boardIdHex).length = 12 ∧
    (tud_descriptor_string_cb mode (usbd_serial_str boardIdHex) tbl 4 =
        some (encode_string_descriptor "Joypad Data")) ∧
    (tud_descriptor_string_cb mode (usbd_serial_str boardIdHex) tbl 5 =
        some (encode_string_descriptor "Joypad Debug")) ∧
    (∀ i, 6 ≤ i →
      tud_descriptor_string_cb mode (usbd_serial_str boardIdHex) tbl i = none) ∧
    (∀ s : String,
      (encode_string_descriptor s).head? =
        some ((0x03 <<< 8) ||| (2 * min s.length 31 + 2)) ∧
      (encode_string_descriptor s).length = min s.length 31 + 1) := by
  have hm1 : (mode == USB_OUTPUT_MODE_XBOX_ORIGINAL) = false := by
    simp [hxog]
  have hm2 : (mode == USB_OUTPUT_MODE_XBONE) = false := by
    simp [hxbone]
  refine ⟨?_, ?_, ?_, ?_, ?_, ?_, ?_, ?_, ?_⟩
  · simp [tud_descriptor_string_cb, hm1, hm2]
  · simp [tud_descriptor_string_cb, hm1, hm2]
  · simp [tud_descriptor_string_cb, hm1, hm2]
  · simp [tud_descriptor_string_cb, hm1, hm2]
  · have hlen : 12 ≤ boardIdHex.data.length := hboard
    have : (usbd_serial_str boardIdHex).length =
        (boardIdHex.data.take 12).length := rfl
    rw [this, List.length_take]
    omega
  · simp [tud_descriptor_string_cb, hm1, hm2]
  · simp [tud_descriptor_string_cb, hm1, hm2]
  · intro i hi
    have h0 : (i == 0) = false := by simp; omega
    have h1 : (i == 1) = false := by simp; omega
    have h2 : (i == 2) = false := by simp; omega
    have h3 : (i == 3) = false := by simp; omega
    have h4 : (i == 4) = false := by simp; omega
    have h5 : (i == 5) = false := by simp; omega
    simp [tud_descriptor_string_cb, hm1, hm2, h0, h1, h2, h3, h4, h5]
  · intro s
    refine ⟨rfl, ?_⟩
    simp only [encode_string_descriptor, List.length_cons, List.length_map,
      List.length_take]
    have : s.length = s.data.length := rfl
    omega

/-- Witness for `string_descriptor_index_assignment` in Switch mode with
a concrete 16-character board id and the all-empty string table. -/
theorem string_descriptor_index_assignment_witness :
    tud_descriptor_string_cb USB_OUTPUT_MODE_SWITCH
        (usbd_serial_str "E66038B713112233") emptyDescStrings 0 =
      some langid_descriptor ∧
    tud_descriptor_string_cb USB_OUTPUT_MODE_SWITCH
        (usbd_serial_str "E66038B713112233") emptyDescStrings 3 =
      some (encode_string_descriptor (usbd_serial_str "E66038B713112233")) ∧
    (usbd_serial_str "E66038B713112233").length = 12 := by
  have h := string_descriptor_index_assignment USB_OUTPUT_MODE_SWITCH
    "E66038B713112233" emptyDescStrings (by decide) (by decide) (by decide)
  exact ⟨h.1, h.2.2.2.1, h.2.2.2.2.1⟩

end Joypad
